import Mathlib

/-!
A verification development for the USB2MDIO_PY driver (`src/usb2mdio.py`).

The Python source is shallowly embedded: every function below mirrors the
source function of the same name.  Bytes are modelled as `Nat`, byte strings
as `List Nat`, Python strings as `String`, and a Python exception escaping a
function is modelled by the `PyResult.exn` constructor.  The serial port is
modelled as a stream `σ : Nat → List Nat` giving the bytes returned by the
n-th `com_port.read` call, together with an explicit cursor counting the
read calls issued so far.
-/

namespace Usb2Mdio

/-- A Python exception kind that can escape one of the modelled functions. -/
inductive PyExn where
  | typeError
  | indexError
  | valueError
  | unicodeError
  | keyError
deriving DecidableEq, Repr

/-- Result of running a piece of Python code: a value, or an escaping
exception. -/
inductive PyResult (α : Type) where
  | ok (val : α)
  | exn (e : PyExn)
deriving DecidableEq, Repr

/-- True when the computation did not raise. -/
def PyResult.isOk {α : Type} : PyResult α → Bool
  | .ok _ => true
  | .exn _ => false

/-- Models `bytes.decode('utf-8')` restricted to the ASCII range: every byte
below 0x80 maps to the character with that code point, any byte ≥ 0x80 is
treated as a decode error (`none`).  All traffic exercised by the claims is
ASCII, so multi-byte UTF-8 sequences are not modelled. -/
def decodeAscii (l : List Nat) : Option String :=
  (l.mapM (fun b => if b < 0x80 then some (Char.ofNat b) else none)).map
    (fun cs => String.mk cs)

/-- Models `[i for i in pkt_reply if i != 0xd]` in `ReceiveRegReply`
(line 172): drop every carriage-return byte. -/
def stripCR (l : List Nat) : List Nat :=
  l.filter (fun b => b != 0x0d)

/-- Models `ReceiveRegReply` (lines 158-174).  `σ n` is the byte string the
n-th `com_port.read` call returns, `c` is the index of the next read call.
The loop tries `com_port.read(6)` up to 50 times and breaks on the first
6-byte result; if all 50 reads come up short it returns `None`.  On success
all 0x0D bytes are removed before the reply is returned.  (The `verbose`
global is never assigned `True` anywhere in the source, so the verbose
branch is dead and not modelled.) -/
def ReceiveRegReply (σ : Nat → List Nat) (c : Nat) : Option (List Nat) × Nat :=
  match (List.range 50).find? (fun i => (σ (c + i)).length == 6) with
  | some i => (some (stripCR (σ (c + i))), c + i + 1)
  | none => (none, c + 50)

/-- Models `GetRegResult` (lines 126-136).  The argument is the value
returned by `ReceiveRegReply`, so it may be `None`; Python then raises
`TypeError` on `pkt_reply[4]`, and `IndexError` when the (already
CR-stripped) reply has fewer than 5 bytes.  A reply whose byte 4 is not the
line feed 0x0A yields `[None, "Invalid reply..."]`; otherwise the first four
bytes are decoded and returned as `['0x' + data_str, None]`.  (The source's
`if data_str == None` arm is dead: `bytes.decode` never returns `None`.) -/
def GetRegResult (pkt_reply : Option (List Nat)) :
    PyResult (Option String × Option String) :=
  match pkt_reply with
  | none => .exn .typeError
  | some p =>
    match p.get? 4 with
    | none => .exn .indexError
    | some b4 =>
      if b4 != 0x0a then
        .ok (none, some "Invalid reply...")
      else
        match decodeAscii (p.take 4) with
        | none => .exn .unicodeError
        | some data_str => .ok (some ("0x" ++ data_str), none)

/-- One line of operator-visible output from a register command: either a
plain `print` or a call into the external pretty-printer
`cr.PrintRegPretty` (a collaborator, not core). -/
inductive OutMsg where
  | text (s : String)
  | prettyCall (addr value : Nat)
deriving DecidableEq, Repr

/-- Models the f-string `f'{n:04x}'`: lowercase hex digits of `n`, left
padded with `'0'` to at least four characters. -/
def hex4 (n : Nat) : String :=
  let ds := Nat.toDigits 16 n
  String.mk (List.replicate (4 - ds.length) '0' ++ ds)

/-- Models the f-string `f'{i:02d}'` on a Python int: decimal digits, left
padded with `'0'` to a total width of two characters (the sign counts
towards the width, so `-1` renders as `"-1"`). -/
def dec2 (i : Int) : String :=
  if i < 0 then
    let ds := Nat.toDigits 10 (-i).toNat
    "-" ++ String.mk (List.replicate (1 - ds.length) '0' ++ ds)
  else
    let ds := Nat.toDigits 10 i.toNat
    String.mk (List.replicate (2 - ds.length) '0' ++ ds)

/-- Hex value of one character, accepting both cases, as `int(_, 16)`
does. -/
def hexVal (c : Char) : Option Nat :=
  if '0' ≤ c ∧ c ≤ '9' then some (c.toNat - 48)
  else if 'a' ≤ c ∧ c ≤ 'f' then some (c.toNat - 87)
  else if 'A' ≤ c ∧ c ≤ 'F' then some (c.toNat - 55)
  else none

/-- Models `int(s, 16)` on the plain unsigned digit strings the program
feeds it; `none` models the raised `ValueError`.  (Python additionally
accepts surrounding whitespace, a sign, a `0x` prefix and `_` separators;
no claim exercises those forms.) -/
def pyIntHex (s : String) : Option Nat :=
  if s = "" then none
  else s.data.foldl
    (fun acc c => acc.bind (fun a => (hexVal c).map (fun d => a * 16 + d)))
    (some 0)

/-- Models `int(s, 10)` on an optionally `'-'`-signed digit string; `none`
models the raised `ValueError`. -/
def pyIntDec (s : String) : Option Int :=
  let digits := fun (l : List Char) =>
    if l = [] then none
    else l.foldl
      (fun acc c =>
        acc.bind (fun a =>
          if '0' ≤ c ∧ c ≤ '9' then some (a * 10 + (c.toNat - 48)) else none))
      (some 0)
  match s.data with
  | '-' :: rest => (digits rest).map (fun n => -(n : Int))
  | l => (digits l).map (fun n => (n : Int))

/-- The warning printed by `PrintRegResult` when pretty printing is on but
no register structure is loaded for the current PHY (line 147). -/
def prettyWarning (phy : Int) : String :=
  "Pretty print is on and no register structure was given for PHY Address " ++
    toString phy ++ "...\n\rYou can disable pretty print with:\n\rconfig pretty no"

/-- Models `PrintRegResult` (lines 138-156).  `pretty` is the global
`pretty_print`, `hasRegs` tells whether `phy_addr in regs_dict.keys()`, and
`pkt_reply` is the value `ReceiveRegReply` produced (possibly `None`, on
which `pkt_reply[4]` raises `TypeError`).  Returns the printed lines. -/
def PrintRegResult (pretty hasRegs : Bool) (phy : Int) (addr : Nat)
    (pkt_reply : Option (List Nat)) : PyResult (List OutMsg) :=
  match pkt_reply with
  | none => .exn .typeError
  | some p =>
    match p.get? 4 with
    | none => .exn .indexError
    | some b4 =>
      if b4 == 0x0a then
        match decodeAscii (p.take 4) with
        | none => .exn .unicodeError
        | some data_str =>
          if data_str != "" then
            if pretty then
              if hasRegs then
                match pyIntHex data_str with
                | none => .exn .valueError
                | some value => .ok [.prettyCall addr value]
              else .ok [.text (prettyWarning phy)]
            else .ok [.text ("0x" ++ data_str)]
          else .ok [.text "No reply..."]
      else .ok [.text "Invalid reply..."]

/-- One request handed to `SendMspRequest`: the tuple it formats into the
wire string `f'{phy_addr:02d}{addr:04x}[{value:04x}]' + ext + '/'`. -/
structure MspRequest where
  phy : Int
  addr : Nat
  value : Option Nat
  ext : String
deriving DecidableEq, Repr

/-- The wire string `SendMspRequest` assembles for a request
(lines 180-183). -/
def encodeRequest (r : MspRequest) : String :=
  match r.value with
  | none => dec2 r.phy ++ hex4 r.addr ++ r.ext ++ "/"
  | some v => dec2 r.phy ++ hex4 r.addr ++ hex4 v ++ r.ext ++ "/"

/-- Models `SendMspRequest` (lines 176-192): assemble and write one request
(recorded in the returned trace), then wait for the reply via
`ReceiveRegReply`.  The write consumes no read calls. -/
def SendMspRequest (σ : Nat → List Nat) (c : Nat) (phy : Int) (ext : String)
    (addr : Nat) (value : Option Nat) :
    Option (List Nat) × Nat × List MspRequest :=
  let r := ReceiveRegReply σ c
  (r.1, r.2, [⟨phy, addr, value, ext⟩])

/-- The MMD selector computed at the top of `ReadWriteRegExtended`
(lines 198-200): the top nibble of `addr`, with the zero nibble replaced by
the vendor-specific selector 0x1F. -/
def mmdSelector (addr : Nat) : Nat :=
  let mmd := (addr &&& 0xF000) >>> 12
  if mmd = 0 then 0x1F else mmd

/-- Models `ReadWriteRegExtended` (lines 194-216): the indirect register
protocol through `REGCR` (0xD) and `ADDAR` (0xE).  Sub-replies other than
the final read are discarded, exactly as in the source. -/
def ReadWriteRegExtended (σ : Nat → List Nat) (c : Nat) (phy : Int)
    (ext : String) (addr : Nat) (value : Option Nat) :
    Option (List Nat) × Nat × List MspRequest :=
  let REGCR : Nat := 0xD
  let ADDAR : Nat := 0xE
  let mmd := mmdSelector addr
  let s1 := SendMspRequest σ c phy ext REGCR (some mmd)
  let s2 := SendMspRequest σ s1.2.1 phy ext ADDAR (some addr)
  let s3 := SendMspRequest σ s2.2.1 phy ext REGCR (some (mmd ||| 0x4000))
  match value with
  | some v =>
    let s4 := SendMspRequest σ s3.2.1 phy ext ADDAR (some v)
    let s5 := SendMspRequest σ s4.2.1 phy ext ADDAR none
    (s5.1, s5.2.1, s1.2.2 ++ s2.2.2 ++ s3.2.2 ++ s4.2.2 ++ s5.2.2)
  | none =>
    let s4 := SendMspRequest σ s3.2.1 phy ext ADDAR none
    (s4.1, s4.2.1, s1.2.2 ++ s2.2.2 ++ s3.2.2 ++ s4.2.2)

/-- Models `RegCmd` (lines 218-233).  The initial `com_port.read(350)` flush
consumes one read call.  Registers above 31 go through the extended
protocol with the mode string hard-wired to `"="`; otherwise one direct
request is sent with the caller's `ext`.  The issued request trace is
returned outside the `PyResult` because the requests are on the wire even
when the subsequent printing raises. -/
def RegCmd (σ : Nat → List Nat) (c : Nat) (pretty quiet hasRegs : Bool)
    (phy : Int) (addr : Nat) (value : Option Nat) (ext : String) :
    List MspRequest × PyResult (Option (List Nat) × Nat × List OutMsg) :=
  let c0 := c + 1
  let step :=
    if addr > 31 then ReadWriteRegExtended σ c0 phy "=" addr value
    else SendMspRequest σ c0 phy ext addr value
  let pkt := step.1
  let c1 := step.2.1
  let tr := step.2.2
  if !pretty && !quiet then
    let hdr := OutMsg.text
      (match value with
       | none => "read 0x" ++ hex4 addr ++ ": "
       | some _ => "write 0x" ++ hex4 addr ++ ": ")
    match PrintRegResult pretty hasRegs phy addr pkt with
    | .exn e => (tr, .exn e)
    | .ok msgs => (tr, .ok (pkt, c1, hdr :: msgs))
  else (tr, .ok (pkt, c1, []))

/-- Models `WriteReg` (lines 235-236). -/
def WriteReg (σ : Nat → List Nat) (c : Nat) (pretty quiet hasRegs : Bool)
    (phy : Int) (addr value : Nat) (ext : String) :
    List MspRequest × PyResult (Option (List Nat) × Nat × List OutMsg) :=
  RegCmd σ c pretty quiet hasRegs phy addr (some value) ext

/-- Models `ReadReg` (lines 238-239). -/
def ReadReg (σ : Nat → List Nat) (c : Nat) (pretty quiet hasRegs : Bool)
    (phy : Int) (addr : Nat) (ext : String) :
    List MspRequest × PyResult (Option (List Nat) × Nat × List OutMsg) :=
  RegCmd σ c pretty quiet hasRegs phy addr none ext

/-- Models `RwRegs` (lines 250-272), the default register read/write path of
the interpreter.  The bare `except` around `int(cmd[0], 16)` also swallows
the `IndexError` of `cmd[0]`; the `except ValueError` around the write arm
catches a `ValueError` from anywhere inside it (including `WriteReg`), but
lets every other exception escape.  The read arm is not guarded at all. -/
def RwRegs (σ : Nat → List Nat) (c : Nat) (pretty hasRegs : Bool) (phy : Int)
    (ext : String) (cmd : List String) (len_cmd : Nat) :
    PyResult (List OutMsg) :=
  match cmd.head? with
  | none => .ok [.text "Invalid command..."]
  | some t0 =>
    match pyIntHex t0 with
    | none => .ok [.text "Invalid command..."]
    | some addr =>
      if len_cmd = 2 then
        match cmd.get? 1 with
        | none => .exn .indexError
        | some t1 =>
          match pyIntHex t1 with
          | none => .ok [.text "Invalid value..."]
          | some value =>
            match (WriteReg σ c pretty false hasRegs phy addr value ext).2 with
            | .exn .valueError => .ok [.text "Invalid value..."]
            | .exn e => .exn e
            | .ok out => .ok out.2.2
      else if len_cmd = 1 then
        match (ReadReg σ c pretty false hasRegs phy addr ext).2 with
        | .exn e => .exn e
        | .ok out => .ok out.2.2
      else .ok [.text "Wrong number of args..."]

/-- The mutable session state of the interpreter: the globals
`pretty_print`, `phy_addr` and `ext` (lines 101-106).  `ext` holds the mode
string, `"*"` for extended-enabled and `"="` otherwise. -/
structure Session where
  pretty_print : Bool
  phy_addr : Int
  ext : String
deriving DecidableEq, Repr

/-- Models the dictionary `ext_dict = {'*': 'yes', '=': 'no'}`
(lines 107-110); `none` models the `KeyError` of a missing key. -/
def ext_dict_lookup (e : String) : Option String :=
  if e = "*" then some "yes" else if e = "=" then some "no" else none

/-- The tuple `('yes', 'y', 'YES', 'Y', 'true', 'True', '1')` accepted as
truthy by `Config` (lines 315 and 325). -/
def truthyTokens : List String :=
  ["yes", "y", "YES", "Y", "true", "True", "1"]

/-- The tuple `('no', 'n', 'NO', 'n', 'false', 'False', '0')` accepted as
falsy by `Config` (lines 317 and 327); the source lists `'n'` twice and
never lists an uppercase `'N'`. -/
def falsyTokens : List String :=
  ["no", "n", "NO", "n", "false", "False", "0"]

/-- Models `Config` (lines 298-337).  With exactly three tokens the named
field is mutated (`phy` via `int(_, 10)`, `ext` and `pretty` via the
truthy/falsy token tuples; an unrecognized boolean token falls through both
membership tests and leaves the field unchanged) and the new state of that
field is printed; any other token count prints all three fields.  A
three-token command whose field name is unknown does nothing. -/
def Config (st : Session) (usr_data : List String) (len_usr_data : Nat) :
    PyResult (Session × List String) :=
  if len_usr_data = 3 then
    match usr_data.get? 1 with
    | none => .exn .indexError
    | some field =>
      if field = "phy" then
        match usr_data.get? 2 with
        | none => .exn .indexError
        | some tok =>
          match pyIntDec tok with
          | none => .ok (st, ["Invalid PHY address..."])
          | some p =>
            .ok ({ st with phy_addr := p }, ["PHY addr = " ++ dec2 p])
      else if field = "ext" then
        match usr_data.get? 2 with
        | none => .exn .indexError
        | some tok =>
          let e' :=
            if truthyTokens.contains tok then "*"
            else if falsyTokens.contains tok then "="
            else st.ext
          match ext_dict_lookup e' with
          | none => .exn .keyError
          | some d =>
            .ok ({ st with ext := e' }, ["Extended register mode: " ++ d])
      else if field = "pretty" then
        match usr_data.get? 2 with
        | none => .exn .indexError
        | some tok =>
          let p' :=
            if truthyTokens.contains tok then true
            else if falsyTokens.contains tok then false
            else st.pretty_print
          .ok ({ st with pretty_print := p' },
            ["Pretty print: " ++ (if p' then "True" else "False")])
      else .ok (st, [])
  else
    match ext_dict_lookup st.ext with
    | none => .exn .keyError
    | some d =>
      .ok (st, ["PHY addr = " ++ dec2 st.phy_addr,
        "Extended register mode: " ++ d,
        "Pretty print: " ++ (if st.pretty_print then "True" else "False")])

/-- What the scan loop prints for one PHY address (lines 349-371): the
decode error message, `"Not found"`, or a found PHY with its model name and
whether this find auto-selected the session's `phy_addr`. -/
inductive ScanOutcome where
  | error (msg : Option String)
  | notFound
  | found (ty : String) (selected : Bool)
deriving DecidableEq, Repr

/-- The body of one iteration of the `scan` loop in `CmdDecision`
(lines 349-371), applied to the current `phy_addr` and the `GetRegResult`
pair for this address: classify the reply and auto-select the first find
when `phy_addr` is still the sentinel -1. -/
def scanBody (i : Nat) (st : Int) (result : Option String × Option String) :
    Int × ScanOutcome :=
  match result.1 with
  | none => (st, .error result.2)
  | some r0 =>
    if r0 = "0000" ∨ r0 = "FFFF" then (st, .notFound)
    else
      let ty :=
        if r0 = "0xA240" then "DP83822"
        else if r0 = "0x0181" then "DP83TD510"
        else "Unknown"
      if st = -1 then (i, .found ty true) else (st, .found ty false)

/-- The scan loop over a list of PHY addresses.  `dev i` is the reply
`ReadReg(com_port, i, 0x03, ext, quiet=True)` obtains for address `i` (the
`ReceiveRegReply` result: `none` on timeout, otherwise the CR-stripped
bytes); `quiet=True` makes that call print nothing and raise nothing, so
only `GetRegResult` and the classification run here.  An exception raised
by `GetRegResult` escapes the loop, as in the source. -/
def scanGo (dev : Nat → Option (List Nat)) :
    List Nat → Int → PyResult (Int × List ScanOutcome)
  | [], st => .ok (st, [])
  | i :: rest, st =>
    match GetRegResult (dev i) with
    | .exn e => .exn e
    | .ok result =>
      let s := scanBody i st result
      match scanGo dev rest s.1 with
      | .exn e => .exn e
      | .ok tail => .ok (tail.1, s.2 :: tail.2)

/-- Models the `scan` branch of `CmdDecision` (lines 344-371): iterate the
loop body over PHY addresses 0-15, starting from the current `phy_addr`,
returning the final `phy_addr` and the per-address outcomes. -/
def ScanCmd (dev : Nat → Option (List Nat)) (st : Int) :
    PyResult (Int × List ScanOutcome) :=
  scanGo dev (List.range 16) st

/-- Split a character list at every character satisfying `p`, keeping the
(possibly empty) pieces between separators; `acc` holds the reversed
characters of the piece being read. -/
def splitChars (p : Char → Bool) : List Char → List Char → List String
  | [], acc => [String.mk acc.reverse]
  | ch :: rest, acc =>
    if p ch then String.mk acc.reverse :: splitChars p rest []
    else splitChars p rest (ch :: acc)

/-- Models `re.split('\n|\r|\n\r|\r\n', conts)` (line 426).  Because
`re.split` takes the leftmost alternative at each position and both
two-character alternatives start with a character that already matches a
one-character alternative, the pattern splits at every single `'\n'` or
`'\r'`. -/
def pyLineSplit (s : String) : List String :=
  splitChars (fun ch => ch = '\n' || ch = '\r') s.data []

/-- The characters before the first occurrence of `//`. -/
def takeBeforeComment : List Char → List Char
  | [] => []
  | '/' :: '/' :: _ => []
  | ch :: rest => ch :: takeBeforeComment rest

/-- Models `conts[i].split('//', 1)[0]` (line 431): the text before the
first `//`. -/
def stripComment (line : String) : String :=
  String.mk (takeBeforeComment line.data)

/-- The comment-stripping loop of `ExecScript` (lines 428-433): the lines
kept are exactly those that are non-empty after comment stripping.  A line
of only whitespace is *not* the empty string and is kept. -/
def buildCmds (conts : List String) : List String :=
  (conts.map stripComment).filter (fun t => t != "")

/-- The command-line list `cmds` that `ExecScript` builds from the script
text (lines 425-433). -/
def scriptCmds (text : String) : List String :=
  buildCmds (pyLineSplit text)

/-- Models Python's `'\x0b'`-inclusive `str.isspace` character class for
`str.split()` (the line separators `'\n'`/`'\r'` cannot occur inside a
line but are included for faithfulness). -/
def pyIsSpace (ch : Char) : Bool :=
  ch = ' ' || ch = '\t' || ch = '\n' || ch = '\r' || ch = '\x0b' || ch = '\x0c'

/-- Models no-argument `str.split()` (line 444): split on whitespace runs
and discard the empty pieces, so a whitespace-only line yields `[]`. -/
def pyStrSplit (s : String) : List String :=
  (splitChars pyIsSpace s.data []).filter (fun t => t != "")

/-- The observable outcome of running a script: a framing error (nothing
executed), normal completion with the token lists dispatched to
`CmdDecision` in order, or an exception escaping from `CmdDecision(cmd)`
on some body line, in which case `dispatched` holds the token lists of the
lines dispatched before the faulting one; the lines after it are never
dispatched. -/
inductive ScriptOutcome where
  | formatError
  | ok (dispatched : List (List String))
  | fault (e : PyExn) (dispatched : List (List String))
deriving DecidableEq, Repr

/-- The dispatch loop of `ExecScript` (lines 443-446): tokenize each body
line and hand it to `CmdDecision`.  `CmdDecision` performs transport,
session, file-system and printing effects; `D toks` abstracts its control
behavior in the ambient state: `some e` when `CmdDecision(toks)` raises the
exception `e` (for example `cmd[0]` at line 344 raises `IndexError` on an
empty token list before any state is consulted, `cmd[1]` at line 408 raises
`IndexError` for a bare `phy`, and a timed-out register read raises
`TypeError`), and `none` when it returns normally.  An escaping exception
aborts the loop, so the remaining lines are never dispatched.  (An explicit
`quit` terminates the process instead; no claim exercises it.) -/
def runBody (D : List String → Option PyExn) :
    List String → List (List String) → ScriptOutcome
  | [], acc => .ok acc.reverse
  | line :: rest, acc =>
    match D (pyStrSplit line) with
    | some e => .fault e acc.reverse
    | none => runBody D rest (pyStrSplit line :: acc)

/-- Models `ExecScript` (lines 421-451) over the dispatcher behavior `D`.
`'begin' in cmds[:1]` holds exactly when the first kept line is the literal
`begin`, and `'end' in cmds[-1:]` exactly when the last kept line is the
literal `end`; otherwise the run aborts with the bad-format message and
dispatches nothing.  On success the two sentinels are removed and the
remaining lines are dispatched in file order until one of them raises. -/
def ExecScript (D : List String → Option PyExn) (text : String) :
    ScriptOutcome :=
  let cmds := scriptCmds text
  if (cmds.head? = some "begin" ∧ cmds.getLast? = some "end") then
    runBody D ((cmds.drop 1).dropLast) []
  else .formatError

/-- The dispatcher behavior of a state in which every nonempty command
completes normally (for instance, well-formed register commands over a
healthy transport); on the empty token list it raises `IndexError`, as
`CmdDecision` does unconditionally (`cmd[0]`, line 344). -/
def benignDispatch : List String → Option PyExn :=
  fun toks => if toks = [] then some PyExn.indexError else none

/-- A dispatcher behavior in which, besides the unconditional `IndexError`
on an empty token list, the bare command `phy` raises `IndexError` — as
`CmdDecision` does in every state, via `cmd[1]` at line 408 — and every
other command completes normally. -/
def phyFaultDispatch : List String → Option PyExn :=
  fun toks =>
    if toks = [] ∨ toks = ["phy"] then some PyExn.indexError else none

/-- The truthy token set exactly as the specification lists it:
{yes, y, YES, Y, true, True, 1}. -/
def specTruthy (tok : String) : Bool :=
  tok == "yes" || tok == "y" || tok == "YES" || tok == "Y" ||
    tok == "true" || tok == "True" || tok == "1"

/-- The falsy token set exactly as the specification lists it:
{no, n, NO, false, False, 0} — note: no uppercase `N`. -/
def specFalsy (tok : String) : Bool :=
  tok == "no" || tok == "n" || tok == "NO" ||
    tok == "false" || tok == "False" || tok == "0"

/-- The new `ext` mode string the specification predicts for
`config ext <tok>`: `"*"` on a truthy token, `"="` on a falsy token,
unchanged otherwise. -/
def specNewExt (tok old : String) : String :=
  if specTruthy tok then "*" else if specFalsy tok then "=" else old

/-- The new `pretty_print` value the specification predicts for
`config pretty <tok>`. -/
def specNewPretty (tok : String) (old : Bool) : Bool :=
  if specTruthy tok then true else if specFalsy tok then false else old

/-- A simulated device whose every scan reply is the six raw bytes
`b'0000\r\n'` after CR stripping, i.e. the all-zero identifier value. -/
def devAllZeros : Nat → Option (List Nat) :=
  fun _ => some [0x30, 0x30, 0x30, 0x30, 0x0A]

/-- A simulated device that reports identifier `0xA240` (reply bytes
`A240` + line feed) at PHY address 3 and a garbled reply (no line feed at
offset 4) everywhere else. -/
def devOnlyAt3 : Nat → Option (List Nat) :=
  fun i =>
    if i = 3 then some [0x41, 0x32, 0x34, 0x30, 0x0A]
    else some [0x30, 0x30, 0x30, 0x30, 0x30]

/-! ## Theorems -/

theorem PyResult.isOk_iff {α : Type} (r : PyResult α) :
    r.isOk = true ↔ ∃ v, r = .ok v := by
  cases r <;> simp [PyResult.isOk]

/-- When every transport read comes up short, the 50-attempt loop of
`ReceiveRegReply` exhausts its budget and returns `None`. -/
theorem receive_timeout (σ : Nat → List Nat) (c : Nat)
    (hσ : ∀ i, (σ i).length ≠ 6) :
    ReceiveRegReply σ c = (none, c + 50) := by
  unfold ReceiveRegReply
  have h : (List.range 50).find? (fun i => (σ (c + i)).length == 6) = none := by
    rw [List.find?_eq_none]
    intro x _
    simp [hσ (c + x)]
  rw [h]

/-- Under a fully timed-out transport the extended protocol's final read —
the only reply it returns — is `None`. -/
theorem readWriteRegExtended_timeout (σ : Nat → List Nat) (c : Nat)
    (phy : Int) (e : String) (addr : Nat) (value : Option Nat)
    (hσ : ∀ i, (σ i).length ≠ 6) :
    (ReadWriteRegExtended σ c phy e addr value).1 = none := by
  have hr : ∀ c', ReceiveRegReply σ c' = (none, c' + 50) :=
    fun c' => receive_timeout σ c' hσ
  cases value <;> simp [ReadWriteRegExtended, SendMspRequest, hr]

/-- With printing active (`pretty_print` off, not quiet), a fully timed-out
transport makes `RegCmd` raise `TypeError`: `ReceiveRegReply` hands `None`
to `PrintRegResult`, which subscripts it. -/
theorem regCmd_timeout (σ : Nat → List Nat) (c : Nat) (hasRegs : Bool)
    (phy : Int) (addr : Nat) (value : Option Nat) (ext : String)
    (hσ : ∀ i, (σ i).length ≠ 6) :
    (RegCmd σ c false false hasRegs phy addr value ext).2 = .exn .typeError := by
  have hr : ∀ c', ReceiveRegReply σ c' = (none, c' + 50) :=
    fun c' => receive_timeout σ c' hσ
  unfold RegCmd
  by_cases h31 : addr > 31
  · simp only [h31, if_true]
    rw [show (ReadWriteRegExtended σ (c + 1) phy "=" addr value).1 = none from
      readWriteRegExtended_timeout σ (c + 1) phy "=" addr value hσ]
    simp [PrintRegResult]
  · simp only [h31, if_false]
    simp [SendMspRequest, hr, PrintRegResult]

/-- Claim C1: the claim says a transaction timeout ("no reply") is surfaced
as an operator-visible message and the interpreter loop continues.  The code
instead raises an uncaught `TypeError`: a read command whose transport
yields fewer than 6 reply bytes on all 50 attempts makes `ReceiveRegReply`
return `None`, `PrintRegResult` subscripts it, and neither `RwRegs` nor any
caller catches the exception, so the process terminates.  This theorem
evaluates the code at the failing input. -/
theorem read_timeout_raises_typeerror (σ : Nat → List Nat) (c : Nat)
    (hasRegs : Bool) (phy : Int) (ext : String) (cmd0 : String) (addr : Nat)
    (hσ : ∀ i, (σ i).length ≠ 6) (hparse : pyIntHex cmd0 = some addr) :
    RwRegs σ c false hasRegs phy ext [cmd0] 1 = .exn .typeError := by
  unfold RwRegs
  simp only [List.head?_cons, hparse]
  norm_num
  rw [show (ReadReg σ c false false hasRegs phy addr ext).2 = .exn .typeError from
    regCmd_timeout σ c hasRegs phy addr none ext hσ]

theorem read_timeout_raises_typeerror_witness :
    RwRegs (fun _ => []) 0 false false 0 "=" ["3"] 1 = .exn .typeError :=
  read_timeout_raises_typeerror (fun _ => []) 0 false 0 "=" "3" 3
    (fun i => by simp) (by decide)

/-- Claim C2 counterexample: the raw six-byte reply `b'1234\r\n'` has byte
0x0D — not the line feed — at offset 4, yet the reception path strips the
carriage return first, so decoding succeeds with value `0x1234` instead of
yielding the "invalid reply" outcome the claim requires. -/
theorem cr_at_offset4_decodes_ok :
    (List.get? [0x31, 0x32, 0x33, 0x34, 0x0D, 0x0A] 4 ≠ some 0x0a) ∧
    (ReceiveRegReply (fun _ => [0x31, 0x32, 0x33, 0x34, 0x0D, 0x0A]) 0).1 =
      some [0x31, 0x32, 0x33, 0x34, 0x0A] ∧
    GetRegResult
        (ReceiveRegReply (fun _ => [0x31, 0x32, 0x33, 0x34, 0x0D, 0x0A]) 0).1 =
      .ok (some "0x1234", none) := by
  refine ⟨by decide, by decide, by decide⟩

/-- Claim C2 as amended: decoding operates on the received reply only after
every carriage-return byte 0x0D has been removed; whenever the byte at
offset 4 of the CR-stripped sequence exists and is not the line feed 0x0A,
the outcome is the "invalid reply" error, regardless of the remaining
bytes. -/
theorem invalid_reply_after_cr_strip (raw : List Nat) (b : Nat)
    (h6 : raw.length = 6) (h4 : (stripCR raw).get? 4 = some b)
    (hb : b ≠ 0x0a) :
    GetRegResult (some (stripCR raw)) = .ok (none, some "Invalid reply...") := by
  simp only [GetRegResult]
  rw [h4]
  simp [hb]

theorem invalid_reply_after_cr_strip_witness :
    GetRegResult (some (stripCR [0x30, 0x30, 0x30, 0x30, 0x30, 0x30])) =
      .ok (none, some "Invalid reply...") :=
  invalid_reply_after_cr_strip [0x30, 0x30, 0x30, 0x30, 0x30, 0x30] 0x30
    (by decide) (by decide) (by decide)

/-- Claim C3: the claim says a reply decoding to the all-zero (or all-one)
identifier is classified "not found" during a scan.  In the code
`GetRegResult` prefixes the decoded digits with `'0x'`, so the comparisons
against the bare strings `"0000"`/`"FFFF"` on line 353 can never be true:
scanning a device whose every reply carries value 0x0000 reports sixteen
found "Unknown" PHYs and even auto-selects address 0.  This theorem
evaluates the code at the failing input. -/
theorem scan_zero_value_reported_found :
    ScanCmd devAllZeros (-1) =
      .ok (0, ScanOutcome.found "Unknown" true ::
        List.replicate 15 (ScanOutcome.found "Unknown" false)) := by
  decide

/-- The mask-and-shift `(addr & 0xF000) >> 12` extracts bits 15-12, i.e.
equals `addr / 4096` for any 16-bit address. -/
theorem and_f000_shiftRight (addr : Nat) (h : addr < 65536) :
    (addr &&& 0xF000) >>> 12 = addr / 4096 := by
  have e1 : (addr &&& 0xF000) >>> 12 = (addr >>> 12) &&& 15 := by
    apply Nat.eq_of_testBit_eq
    intro j
    rw [Nat.testBit_shiftRight, Nat.testBit_and, Nat.testBit_and,
      Nat.testBit_shiftRight]
    have e : (0xF000 : Nat) = 15 <<< 12 := by decide
    rw [e, Nat.testBit_shiftLeft]
    have e' : 12 + j - 12 = j := by omega
    simp [e']
  rw [e1]
  have e3 : addr >>> 12 = addr / 4096 := by
    rw [Nat.shiftRight_eq_div_pow]
  rw [e3]
  have e2 : (15 : Nat) = 2 ^ 4 - 1 := by norm_num
  rw [e2, Nat.and_pow_two_sub_one_eq_mod]
  exact Nat.mod_eq_of_lt (by omega)

/-- Claim C6: for every 16-bit address, the MMD selector computed by
`ReadWriteRegExtended` is the top nibble of the address (bits 15-12) when
that nibble is nonzero, and 0x1F when the top nibble is zero. -/
theorem mmd_selector_top_nibble (addr : Nat) (h : addr < 65536) :
    mmdSelector addr = if addr / 4096 = 0 then 0x1F else addr / 4096 := by
  unfold mmdSelector
  rw [and_f000_shiftRight addr h]

theorem mmd_selector_top_nibble_witness :
    mmdSelector 0x4003 =
      (if (0x4003 : Nat) / 4096 = 0 then 0x1F else (0x4003 : Nat) / 4096) ∧
    mmdSelector 0x0123 =
      (if (0x0123 : Nat) / 4096 = 0 then 0x1F else (0x0123 : Nat) / 4096) :=
  ⟨mmd_selector_top_nibble 0x4003 (by decide),
   mmd_selector_top_nibble 0x0123 (by decide)⟩

/-- Claim C4: for every register address above 31, the extended protocol
issues exactly 4 sub-transactions on a read and exactly 5 on a write, in
the fixed order: write the MMD selector to register-control (0xD), write
the target address to address/data (0xE), write `selector | 0x4000` to
register-control, optionally write the value to address/data, and finally
read address/data; the final read's reply is the value the transaction
returns. -/
theorem extended_protocol_subtransactions (σ : Nat → List Nat) (c : Nat)
    (phy : Int) (e : String) (addr : Nat) (value : Nat) (h : 31 < addr) :
    (ReadWriteRegExtended σ c phy e addr none).2.2 =
      [⟨phy, 0xD, some (mmdSelector addr), e⟩,
       ⟨phy, 0xE, some addr, e⟩,
       ⟨phy, 0xD, some (mmdSelector addr ||| 0x4000), e⟩,
       ⟨phy, 0xE, none, e⟩] ∧
    (ReadWriteRegExtended σ c phy e addr (some value)).2.2 =
      [⟨phy, 0xD, some (mmdSelector addr), e⟩,
       ⟨phy, 0xE, some addr, e⟩,
       ⟨phy, 0xD, some (mmdSelector addr ||| 0x4000), e⟩,
       ⟨phy, 0xE, some value, e⟩,
       ⟨phy, 0xE, none, e⟩] ∧
    ((ReadWriteRegExtended σ c phy e addr none).2.2).length = 4 ∧
    ((ReadWriteRegExtended σ c phy e addr (some value)).2.2).length = 5 ∧
    (ReadWriteRegExtended σ c phy e addr none).1 =
      (ReceiveRegReply σ
        (ReceiveRegReply σ
          (ReceiveRegReply σ (ReceiveRegReply σ c).2).2).2).1 ∧
    (ReadWriteRegExtended σ c phy e addr (some value)).1 =
      (ReceiveRegReply σ
        (ReceiveRegReply σ
          (ReceiveRegReply σ
            (ReceiveRegReply σ (ReceiveRegReply σ c).2).2).2).2).1 := by
  refine ⟨?_, ?_, ?_, ?_, ?_, ?_⟩ <;>
    simp [ReadWriteRegExtended, SendMspRequest]

theorem extended_protocol_subtransactions_witness :
    (31 : Nat) < 0x4003 ∧
    (ReadWriteRegExtended (fun _ => []) 0 1 "=" 0x4003 none).2.2 =
      [⟨1, 0xD, some (mmdSelector 0x4003), "="⟩,
       ⟨1, 0xE, some 0x4003, "="⟩,
       ⟨1, 0xD, some (mmdSelector 0x4003 ||| 0x4000), "="⟩,
       ⟨1, 0xE, none, "="⟩] ∧
    (ReadWriteRegExtended (fun _ => []) 0 1 "=" 0x4003 (some 0xff)).2.2 =
      [⟨1, 0xD, some (mmdSelector 0x4003), "="⟩,
       ⟨1, 0xE, some 0x4003, "="⟩,
       ⟨1, 0xD, some (mmdSelector 0x4003 ||| 0x4000), "="⟩,
       ⟨1, 0xE, some 0xff, "="⟩,
       ⟨1, 0xE, none, "="⟩] :=
  ⟨by decide,
   (extended_protocol_subtransactions (fun _ => []) 0 1 "=" 0x4003 0xff
     (by decide)).1,
   (extended_protocol_subtransactions (fun _ => []) 0 1 "=" 0x4003 0xff
     (by decide)).2.1⟩

/-- The request trace `RegCmd` leaves on the wire: the extended-protocol
trace with the mode string hard-wired to `"="` for addresses above 31, and
a single direct request with the caller's mode string otherwise.  The trace
does not depend on printing options. -/
theorem regCmd_trace (σ : Nat → List Nat) (c : Nat)
    (pretty quiet hasRegs : Bool) (phy : Int) (addr : Nat)
    (value : Option Nat) (ext : String) :
    (RegCmd σ c pretty quiet hasRegs phy addr value ext).1 =
      if addr > 31 then (ReadWriteRegExtended σ (c + 1) phy "=" addr value).2.2
      else [⟨phy, addr, value, ext⟩] := by
  by_cases h31 : addr > 31 <;>
    · simp only [RegCmd, h31, if_true, if_false, SendMspRequest]
      split <;> try split
      all_goals rfl

/-- Claim C5: for every register access with `addr > 31`, `RegCmd` runs the
extended (indirect) protocol and every sub-request carries the mode string
`"="` — its encoded wire form ends in `"=/"` — regardless of the caller's
`ext` flag; for `addr ≤ 31` a single direct request is sent with the
caller's flag. -/
theorem regcmd_extended_mode_char (σ : Nat → List Nat) (c : Nat)
    (pretty quiet hasRegs : Bool) (phy : Int) (addr : Nat)
    (value : Option Nat) (ext : String) :
    (31 < addr →
      (RegCmd σ c pretty quiet hasRegs phy addr value ext).1 =
        (ReadWriteRegExtended σ (c + 1) phy "=" addr value).2.2 ∧
      ∀ r ∈ (RegCmd σ c pretty quiet hasRegs phy addr value ext).1,
        r.ext = "=" ∧ ∃ s, encodeRequest r = s ++ "=/") ∧
    (addr ≤ 31 →
      (RegCmd σ c pretty quiet hasRegs phy addr value ext).1 =
        [⟨phy, addr, value, ext⟩]) := by
  constructor
  · intro h31
    have ht := regCmd_trace σ c pretty quiet hasRegs phy addr value ext
    rw [if_pos h31] at ht
    refine ⟨ht, ?_⟩
    rw [ht]
    have hm : ∀ a v, encodeRequest ⟨phy, a, v, "="⟩ =
        (match v with
         | none => dec2 phy ++ hex4 a
         | some w => dec2 phy ++ hex4 a ++ hex4 w) ++ "=/" := by
      intro a v
      cases v <;> simp [encodeRequest, String.append_assoc] <;> rfl
    intro r hr
    cases value <;>
      simp only [ReadWriteRegExtended, SendMspRequest, List.append_assoc,
        List.cons_append, List.nil_append, List.mem_cons,
        List.not_mem_nil, or_false] at hr <;>
      rcases hr with rfl | rfl | rfl | rfl | rfl <;>
      exact ⟨rfl, _, hm _ _⟩
  · intro hle
    have ht := regCmd_trace σ c pretty quiet hasRegs phy addr value ext
    rw [if_neg (by omega)] at ht
    exact ht

theorem regcmd_extended_mode_char_witness :
    ((31 : Nat) < 0x1234 ∧
      ∀ r ∈ (RegCmd (fun _ => []) 0 false true false 1 0x1234 none "*").1,
        r.ext = "=" ∧ ∃ s, encodeRequest r = s ++ "=/") ∧
    ((5 : Nat) ≤ 31 ∧
      (RegCmd (fun _ => []) 0 false true false 1 5 (some 0xff) "*").1 =
        [⟨1, 5, some 0xff, "*"⟩]) :=
  ⟨⟨by decide,
    ((regcmd_extended_mode_char (fun _ => []) 0 false true false 1 0x1234
      none "*").1 (by decide)).2⟩,
   ⟨by decide,
    (regcmd_extended_mode_char (fun _ => []) 0 false true false 1 5
      (some 0xff) "*").2 (by decide)⟩⟩

/-- When no body line's dispatch raises, the dispatch loop completes and
dispatches each line's tokens in order. -/
theorem runBody_ok (D : List String → Option PyExn) (body : List String)
    (h : ∀ l ∈ body, D (pyStrSplit l) = none) (acc : List (List String)) :
    runBody D body acc = .ok (acc.reverse ++ body.map pyStrSplit) := by
  induction body generalizing acc with
  | nil => simp [runBody]
  | cons l rest ih =>
    have hl := h l (by simp)
    simp only [runBody, hl]
    rw [ih (fun x hx => h x (by simp [hx]))]
    simp

/-- The first body line whose dispatch raises stops the dispatch loop with
that exception; only the lines before it were dispatched. -/
theorem runBody_fault (D : List String → Option PyExn) (pre : List String)
    (bad : String) (rest : List String) (e : PyExn)
    (hpre : ∀ l ∈ pre, D (pyStrSplit l) = none)
    (hbad : D (pyStrSplit bad) = some e) (acc : List (List String)) :
    runBody D (pre ++ bad :: rest) acc =
      .fault e (acc.reverse ++ pre.map pyStrSplit) := by
  induction pre generalizing acc with
  | nil =>
    rw [List.nil_append]
    simp [runBody, hbad]
  | cons l p ih =>
    have hl := hpre l (by simp)
    rw [show (l :: p) ++ bad :: rest = l :: (p ++ bad :: rest) from rfl]
    rw [show runBody D (l :: (p ++ bad :: rest)) acc =
          runBody D (p ++ bad :: rest) (pyStrSplit l :: acc) from by
      simp only [runBody, hl]]
    rw [ih (fun x hx => hpre x (by simp [hx]))]
    simp

/-- Claim C7 counterexample: in the script `begin\n\t\n01\nend` both
sentinels are present, yet even in a state where every nonempty command
completes normally the line `01` strictly between them is never dispatched:
the tab-only line before it reaches `CmdDecision` with zero tokens, and the
`IndexError` from `cmd[0]` (line 344) aborts the script run. -/
theorem script_whitespace_line_aborts :
    ExecScript benignDispatch "begin\n\t\n01\nend" =
      .fault .indexError [] ∧
    ExecScript benignDispatch "begin\n\t\n01\nend" ≠ .ok [["01"]] := by
  exact ⟨by decide, by decide⟩

/-- Claim C7 as amended: a script whose kept line sequence (lines non-empty
after `//`-comment stripping; whitespace-only lines are kept) does not
start with `begin` or does not end with `end` executes zero commands and
reports a format error.  When both sentinels are present, the lines
strictly between them are handed to the interpreter in file order up to
the first one whose dispatch raises (a whitespace-only line always raises:
its empty token list hits `cmd[0]`; a nonempty command can also raise,
e.g. a bare `phy`), and the lines after it are never dispatched; if no
body line's dispatch raises, every line strictly between the sentinels is
dispatched in file order. -/
theorem execscript_framing (D : List String → Option PyExn) (text : String) :
    (¬((scriptCmds text).head? = some "begin" ∧
        (scriptCmds text).getLast? = some "end") →
      ExecScript D text = .formatError) ∧
    ((scriptCmds text).head? = some "begin" →
      (scriptCmds text).getLast? = some "end" →
      (∀ l ∈ ((scriptCmds text).drop 1).dropLast, D (pyStrSplit l) = none) →
      ExecScript D text =
        .ok ((((scriptCmds text).drop 1).dropLast).map pyStrSplit)) ∧
    ((scriptCmds text).head? = some "begin" →
      (scriptCmds text).getLast? = some "end" →
      ∀ pre bad rest,
        ((scriptCmds text).drop 1).dropLast = pre ++ bad :: rest →
        (∀ l ∈ pre, D (pyStrSplit l) = none) →
        ∀ e, D (pyStrSplit bad) = some e →
        ExecScript D text = .fault e (pre.map pyStrSplit)) := by
  refine ⟨?_, ?_, ?_⟩
  · intro hne
    simp only [ExecScript]
    rw [if_neg hne]
  · intro h1 h2 h3
    simp only [ExecScript]
    rw [if_pos ⟨h1, h2⟩, runBody_ok D _ h3]
    simp
  · intro h1 h2 pre bad rest hsplit hpre e hbad
    simp only [ExecScript]
    rw [if_pos ⟨h1, h2⟩, hsplit, runBody_fault D pre bad rest e hpre hbad]
    simp

theorem execscript_framing_witness :
    ExecScript benignDispatch "01\nend" = .formatError ∧
    ExecScript benignDispatch "begin\n01 ff\nend" =
      .ok (List.map pyStrSplit
        (((scriptCmds "begin\n01 ff\nend").drop 1).dropLast)) ∧
    ExecScript phyFaultDispatch "begin\nphy\n01\nend" =
      .fault .indexError (List.map pyStrSplit []) :=
  ⟨(execscript_framing benignDispatch "01\nend").1 (by decide),
   (execscript_framing benignDispatch "begin\n01 ff\nend").2.1 (by decide)
     (by decide) (by decide),
   (execscript_framing phyFaultDispatch "begin\nphy\n01\nend").2.2
     (by decide) (by decide) [] "phy" ["01"] (by decide) (by decide)
     PyExn.indexError (by decide)⟩

/-- Claim C8 counterexample: the script `begin\n \nend` contains one body
line consisting of a single space.  The claim predicts it is ignored and
the script completes with zero commands; instead — even in a state where
every nonempty command completes normally — it is kept by the
comment-stripping filter (only the exactly-empty string is discarded),
tokenizes to zero tokens, and `CmdDecision` faults with `IndexError`. -/
theorem script_whitespace_line_not_ignored :
    ExecScript benignDispatch "begin\n \nend" = .fault .indexError [] ∧
    ExecScript benignDispatch "begin\n \nend" ≠ .ok [] := by
  exact ⟨by decide, by decide⟩

/-- Claim C8 as amended: a line that is exactly empty, or becomes exactly
empty after stripping from the first `//`, is discarded from the command
list — inserting such a line anywhere changes nothing, so execution
continues across it.  A whitespace-only line, however, is retained: inside
the body it reaches the dispatcher with zero tokens and raises
`IndexError` (`cmd[0]`, line 344, unconditionally), so — provided the
lines before it dispatched without raising — those earlier lines are the
only ones executed and the remaining commands never run. -/
theorem blank_and_comment_line_handling :
    (∀ (pre post : List String) (bl : String), stripComment bl = "" →
      buildCmds (pre ++ bl :: post) = buildCmds (pre ++ post)) ∧
    (∀ (D : List String → Option PyExn) (pre rest : List String)
      (ws : String),
      (∀ l ∈ pre, D (pyStrSplit l) = none) → pyStrSplit ws = [] →
      D [] = some PyExn.indexError →
      runBody D (pre ++ ws :: rest) [] =
        .fault .indexError (pre.map pyStrSplit)) := by
  constructor
  · intro pre post bl hbl
    simp [buildCmds, hbl]
  · intro D pre rest ws hpre hws hD
    have hbad : D (pyStrSplit ws) = some PyExn.indexError := by
      rw [hws, hD]
    simpa using runBody_fault D pre ws rest PyExn.indexError hpre hbad []

theorem blank_and_comment_line_handling_witness :
    buildCmds (["01"] ++ "// note" :: ["02"]) = buildCmds (["01"] ++ ["02"]) ∧
    runBody benignDispatch (["01"] ++ " " :: ["02"]) [] =
      .fault .indexError (List.map pyStrSplit ["01"]) :=
  ⟨blank_and_comment_line_handling.1 ["01"] ["02"] "// note" (by decide),
   blank_and_comment_line_handling.2 benignDispatch ["01"] ["02"] " "
     (by decide) (by decide) (by decide)⟩

/-- Once `phy_addr` is no longer the sentinel -1, one scan step never
changes it, and a found PHY is reported without being selected. -/
theorem scanBody_of_selected (i : Nat) (st : Int) (hst : st ≠ -1)
    (r : Option String × Option String) :
    (scanBody i st r).1 = st ∧
    ∀ ty b, (scanBody i st r).2 = ScanOutcome.found ty b → b = false := by
  obtain ⟨r0, r1⟩ := r
  cases r0 with
  | none => simp [scanBody]
  | some v =>
    simp only [scanBody]
    split_ifs <;> simp

/-- Once a PHY has been selected, the rest of the scan keeps the selection
and reports every further find with `selected = false`, provided every
remaining reply decodes without raising. -/
theorem scanGo_preserves_selection (dev : Nat → Option (List Nat))
    (l : List Nat) (st : Int) (hst : st ≠ -1)
    (hdev : ∀ i ∈ l, (GetRegResult (dev i)).isOk = true) :
    ∃ outs, scanGo dev l st = .ok (st, outs) ∧
      ∀ o ∈ outs, ∀ ty b, o = ScanOutcome.found ty b → b = false := by
  induction l with
  | nil => exact ⟨[], rfl, by simp⟩
  | cons i rest ih =>
    obtain ⟨r, hr⟩ := (PyResult.isOk_iff _).1 (hdev i (by simp))
    obtain ⟨h1, h2⟩ := scanBody_of_selected i st hst r
    obtain ⟨outs, ho, hsel⟩ := ih (fun x hx => hdev x (by simp [hx]))
    refine ⟨(scanBody i st r).2 :: outs, ?_, ?_⟩
    · simp only [scanGo, hr]
      rw [h1, ho]
    · intro o ho'
      rcases List.mem_cons.1 ho' with h | h
      · intro ty b he
        exact h2 ty b (h ▸ he)
      · exact hsel o h

/-- One unfolding step of the scan loop when the decode does not raise. -/
theorem scanGo_cons (dev : Nat → Option (List Nat)) (i : Nat)
    (rest : List Nat) (st : Int) (r : Option String × Option String)
    (hr : GetRegResult (dev i) = .ok r) :
    scanGo dev (i :: rest) st =
      match scanGo dev rest (scanBody i st r).1 with
      | .exn e => .exn e
      | .ok tail => .ok (tail.1, (scanBody i st r).2 :: tail.2) := by
  simp only [scanGo, hr]

/-- Claim C9: scanning addresses 0-15 against a device that reports
identifier 0xA240 only at address 3 — every lower address yields no
successful decode, every higher address yields any non-raising reply —
selects `phy_addr = 3`, labels address 3 "DP83822", and reports every
subsequently found PHY without changing the selection. -/
theorem scan_selects_first_found (dev : Nat → Option (List Nat))
    (h3 : GetRegResult (dev 3) = .ok (some "0xA240", none))
    (hlt : ∀ i, i < 3 →
      GetRegResult (dev i) = .ok (none, some "Invalid reply..."))
    (hgt : ∀ i, i < 16 → 3 < i → (GetRegResult (dev i)).isOk = true) :
    ∃ outs,
      ScanCmd dev (-1) =
        .ok (3, ScanOutcome.error (some "Invalid reply...") ::
          ScanOutcome.error (some "Invalid reply...") ::
          ScanOutcome.error (some "Invalid reply...") ::
          ScanOutcome.found "DP83822" true :: outs) ∧
      ∀ o ∈ outs, ∀ ty b, o = ScanOutcome.found ty b → b = false := by
  obtain ⟨outs, ho, hsel⟩ :=
    scanGo_preserves_selection dev [4, 5, 6, 7, 8, 9, 10, 11, 12, 13, 14, 15]
      3 (by decide)
      (by
        intro i hi
        fin_cases hi <;>
          [exact hgt 4 (by omega) (by omega); exact hgt 5 (by omega) (by omega);
           exact hgt 6 (by omega) (by omega); exact hgt 7 (by omega) (by omega);
           exact hgt 8 (by omega) (by omega); exact hgt 9 (by omega) (by omega);
           exact hgt 10 (by omega) (by omega);
           exact hgt 11 (by omega) (by omega);
           exact hgt 12 (by omega) (by omega);
           exact hgt 13 (by omega) (by omega);
           exact hgt 14 (by omega) (by omega);
           exact hgt 15 (by omega) (by omega)])
  refine ⟨outs, ?_, hsel⟩
  have e : List.range 16 =
      [0, 1, 2, 3, 4, 5, 6, 7, 8, 9, 10, 11, 12, 13, 14, 15] := by decide
  unfold ScanCmd
  rw [e]
  rw [scanGo_cons dev 0 _ _ _ (hlt 0 (by omega))]
  rw [show scanBody 0 (-1) (none, some "Invalid reply...") =
    ((-1 : Int), ScanOutcome.error (some "Invalid reply...")) from rfl]
  rw [scanGo_cons dev 1 _ _ _ (hlt 1 (by omega))]
  rw [show scanBody 1 (-1) (none, some "Invalid reply...") =
    ((-1 : Int), ScanOutcome.error (some "Invalid reply...")) from rfl]
  rw [scanGo_cons dev 2 _ _ _ (hlt 2 (by omega))]
  rw [show scanBody 2 (-1) (none, some "Invalid reply...") =
    ((-1 : Int), ScanOutcome.error (some "Invalid reply...")) from rfl]
  rw [scanGo_cons dev 3 _ _ _ h3]
  rw [show scanBody 3 (-1) (some "0xA240", none) =
    ((3 : Int), ScanOutcome.found "DP83822" true) from by decide]
  rw [ho]

theorem scan_selects_first_found_witness :
    ∃ outs,
      ScanCmd devOnlyAt3 (-1) =
        .ok (3, ScanOutcome.error (some "Invalid reply...") ::
          ScanOutcome.error (some "Invalid reply...") ::
          ScanOutcome.error (some "Invalid reply...") ::
          ScanOutcome.found "DP83822" true :: outs) ∧
      ∀ o ∈ outs, ∀ ty b, o = ScanOutcome.found ty b → b = false :=
  scan_selects_first_found devOnlyAt3 (by decide)
    (by decide)
    (by decide)

/-- The membership test `usr_data[2] in ('yes', ...)` used by `Config`
agrees with the specification's truthy set. -/
theorem contains_truthy (tok : String) :
    truthyTokens.contains tok = specTruthy tok := by
  by_cases h1 : tok = "yes" <;> by_cases h2 : tok = "y" <;>
    by_cases h3 : tok = "YES" <;> by_cases h4 : tok = "Y" <;>
    by_cases h5 : tok = "true" <;> by_cases h6 : tok = "True" <;>
    by_cases h7 : tok = "1" <;>
    simp [truthyTokens, specTruthy, h1, h2, h3, h4, h5, h6, h7]

/-- The membership test `usr_data[2] in ('no', ...)` used by `Config`
agrees with the specification's falsy set (the source's duplicated `'n'`
entry is redundant, and no uppercase `N` is accepted). -/
theorem contains_falsy (tok : String) :
    falsyTokens.contains tok = specFalsy tok := by
  by_cases h1 : tok = "no" <;> by_cases h2 : tok = "n" <;>
    by_cases h3 : tok = "NO" <;> by_cases h4 : tok = "false" <;>
    by_cases h5 : tok = "False" <;> by_cases h6 : tok = "0" <;>
    simp [falsyTokens, specFalsy, h1, h2, h3, h4, h5, h6]

/-- The `config ext <tok>` branch: the new mode is exactly the one the
specification's token sets predict, the other session fields are untouched,
and the (possibly unchanged) state is printed. -/
theorem config_ext_eq (st : Session) (tok : String)
    (hext : st.ext = "*" ∨ st.ext = "=") :
    Config st ["config", "ext", tok] 3 =
      .ok ({ st with ext := specNewExt tok st.ext },
        ["Extended register mode: " ++
          (if specNewExt tok st.ext = "*" then "yes" else "no")]) := by
  have hC : ∀ e' : String,
      (if truthyTokens.contains tok then "*"
       else if falsyTokens.contains tok then "=" else st.ext) = e' →
      Config st ["config", "ext", tok] 3 =
        (match ext_dict_lookup e' with
         | none => .exn .keyError
         | some d =>
           .ok ({ st with ext := e' }, ["Extended register mode: " ++ d])) := by
    rintro e' rfl
    rfl
  rw [hC (specNewExt tok st.ext)
    (by rw [contains_truthy, contains_falsy]; rfl)]
  have hrange : specNewExt tok st.ext = "*" ∨ specNewExt tok st.ext = "=" := by
    unfold specNewExt
    split_ifs
    · exact Or.inl rfl
    · exact Or.inr rfl
    · exact hext
  rcases hrange with h | h <;> rw [h] <;> rfl

/-- The `config pretty <tok>` branch: the new flag is exactly the one the
specification's token sets predict, the other session fields are untouched,
and the (possibly unchanged) state is printed. -/
theorem config_pretty_eq (st : Session) (tok : String) :
    Config st ["config", "pretty", tok] 3 =
      .ok ({ st with pretty_print := specNewPretty tok st.pretty_print },
        ["Pretty print: " ++
          (if specNewPretty tok st.pretty_print then "True" else "False")]) := by
  have hP : ∀ p' : Bool,
      (if truthyTokens.contains tok then true
       else if falsyTokens.contains tok then false else st.pretty_print) = p' →
      Config st ["config", "pretty", tok] 3 =
        .ok ({ st with pretty_print := p' },
          ["Pretty print: " ++ (if p' then "True" else "False")]) := by
    rintro p' rfl
    rfl
  exact hP (specNewPretty tok st.pretty_print)
    (by rw [contains_truthy, contains_falsy]; rfl)

/-- Claim C10: for every token, `config ext <tok>` sets the mode to `"*"`
on a token of the truthy set {yes, y, YES, Y, true, True, 1}, to `"="` on a
token of the falsy set {no, n, NO, false, False, 0}, and leaves it
unchanged on any other token (such as `N`), in every case printing the
current state; `config pretty <tok>` behaves likewise for the pretty flag.
No other session field is modified in any of these cases. -/
theorem config_bool_fields (st : Session) (tok : String)
    (hext : st.ext = "*" ∨ st.ext = "=") :
    Config st ["config", "ext", tok] 3 =
      .ok ({ st with ext := specNewExt tok st.ext },
        ["Extended register mode: " ++
          (if specNewExt tok st.ext = "*" then "yes" else "no")]) ∧
    Config st ["config", "pretty", tok] 3 =
      .ok ({ st with pretty_print := specNewPretty tok st.pretty_print },
        ["Pretty print: " ++
          (if specNewPretty tok st.pretty_print then "True" else "False")]) :=
  ⟨config_ext_eq st tok hext, config_pretty_eq st tok⟩

theorem config_bool_fields_witness :
    Config ⟨false, -1, "="⟩ ["config", "ext", "N"] 3 =
      .ok (⟨false, -1, specNewExt "N" "="⟩,
        ["Extended register mode: " ++
          (if specNewExt "N" "=" = "*" then "yes" else "no")]) ∧
    Config ⟨false, -1, "="⟩ ["config", "pretty", "N"] 3 =
      .ok (⟨specNewPretty "N" false, -1, "="⟩,
        ["Pretty print: " ++
          (if specNewPretty "N" false then "True" else "False")]) :=
  config_bool_fields ⟨false, -1, "="⟩ "N" (Or.inr rfl)

end Usb2Mdio
